import Mathlib

/-
Verification of the EmberAI repository against its specification.

The Fire Perimeter Ingestion & Risk Engine (fire_perimeter_service.py) is
referenced by the repository's README files but its source is not present in
the tree; the definitions for it below are modelled from the specification
(each such definition says so in its doc comment).  The Express resource
store and the MapView tile-layer toggle are embedded directly from the
JavaScript sources.
-/

namespace EmberAI

/-- Modelled from the spec: the closed set of perimeter types
(`current`, `historical`, `certified`), never inferred. -/
inductive PerimeterType where
  | current
  | historical
  | certified
deriving DecidableEq, Repr

/-- Modelled from the spec: the normalized FirePerimeter entity.  Geographic
coordinates are (longitude, latitude) pairs; floating-point attribute values
are embedded as rationals. -/
structure FirePerimeter where
  id : String
  name : String
  geometry : List (ℚ × ℚ)
  acres : ℚ
  containment_pct : ℚ
  discovery_date : Option ℕ
  perimeter_type : PerimeterType
  source_dataset : String
deriving DecidableEq, Repr

/-- Modelled from the spec: an axis-aligned geographic bounding box used by the
Geometry Utilities for bounding-box intersection tests. -/
structure BBox where
  minLon : ℚ
  minLat : ℚ
  maxLon : ℚ
  maxLat : ℚ
deriving DecidableEq, Repr

/-- Modelled from the spec: grow a bounding box to cover one more point. -/
def extendBBox (b : BBox) (q : ℚ × ℚ) : BBox :=
  ⟨min b.minLon q.1, min b.minLat q.2, max b.maxLon q.1, max b.maxLat q.2⟩

/-- Modelled from the spec: the bounding box of a vertex list (`none` on empty
geometry, which the ingestion invariant rules out). -/
def bboxOf : List (ℚ × ℚ) → Option BBox
  | [] => none
  | p :: ps => some (ps.foldl extendBBox ⟨p.1, p.2, p.1, p.2⟩)

/-- Modelled from the spec: inclusive-edge intersection of two boxes. -/
def bboxIntersects (a b : BBox) : Bool :=
  decide (a.minLon ≤ b.maxLon ∧ b.minLon ≤ a.maxLon ∧
          a.minLat ≤ b.maxLat ∧ b.minLat ≤ a.maxLat)

/-- Modelled from the spec: external state reference boundaries, reduced to
bounding boxes (the engine only needs a containment/intersection test; the
boundary data itself is an external input). -/
def stateBoundary : String → Option BBox
  | "CA" => some ⟨-125, 32, -114, 42⟩
  | "OR" => some ⟨-125, 42, -116, 46⟩
  | "WA" => some ⟨-125, 45, -116, 49⟩
  | _ => none

/-- Modelled from the spec: squared flat distance in degrees between two
(longitude, latitude) points.  The service computes great-circle miles; the
transcendental trigonometry is modelled by a computable per-record distance
predicate with miles converted to degrees at 69 miles per degree. -/
def sqDegDist (a b : ℚ × ℚ) : ℚ :=
  (a.1 - b.1) ^ 2 + (a.2 - b.2) ^ 2

/-- Modelled from the spec: `by_min_acres(x)`: keep `acres ≥ x`. -/
def by_min_acres (x : ℚ) (recs : List FirePerimeter) : List FirePerimeter :=
  recs.filter (fun r => decide (x ≤ r.acres))

/-- Modelled from the spec: `by_max_containment(x)`: keep
`containment_pct ≤ x`. -/
def by_max_containment (x : ℚ) (recs : List FirePerimeter) : List FirePerimeter :=
  recs.filter (fun r => decide (r.containment_pct ≤ x))

/-- Modelled from the spec: `by_state(code)`: keep records whose geometry
intersects the named state's reference boundary. -/
def by_state (code : String) (recs : List FirePerimeter) : List FirePerimeter :=
  recs.filter (fun r =>
    match stateBoundary code, bboxOf r.geometry with
    | some sb, some gb => bboxIntersects gb sb
    | _, _ => false)

/-- Modelled from the spec: `by_bbox`: keep records whose geometry bounding box
intersects the given box (inclusive edges). -/
def by_bbox (minLon minLat maxLon maxLat : ℚ) (recs : List FirePerimeter) :
    List FirePerimeter :=
  recs.filter (fun r =>
    match bboxOf r.geometry with
    | some gb => bboxIntersects gb ⟨minLon, minLat, maxLon, maxLat⟩
    | none => false)

/-- Modelled from the spec: `by_radius(lat, lon, miles)`: keep records whose
geometry's nearest point to `(lat, lon)` is within `miles`. -/
def by_radius (lat lon miles : ℚ) (recs : List FirePerimeter) : List FirePerimeter :=
  recs.filter (fun r =>
    r.geometry.any (fun v => decide (sqDegDist v (lon, lat) ≤ (miles / 69) ^ 2)))

/-- Modelled from the spec: the five Filter Engine predicates, as data, so that
statements can quantify over the choice of predicate. -/
inductive FilterSpec where
  | minAcres (x : ℚ)
  | maxContainment (x : ℚ)
  | state (code : String)
  | bbox (minLon minLat maxLon maxLat : ℚ)
  | radius (lat lon miles : ℚ)

/-- Modelled from the spec: the per-record predicate of each filter. -/
def FilterSpec.pred : FilterSpec → FirePerimeter → Bool
  | .minAcres x, r => decide (x ≤ r.acres)
  | .maxContainment x, r => decide (r.containment_pct ≤ x)
  | .state code, r =>
      match stateBoundary code, bboxOf r.geometry with
      | some sb, some gb => bboxIntersects gb sb
      | _, _ => false
  | .bbox minLon minLat maxLon maxLat, r =>
      match bboxOf r.geometry with
      | some gb => bboxIntersects gb ⟨minLon, minLat, maxLon, maxLat⟩
      | none => false
  | .radius lat lon miles, r =>
      r.geometry.any (fun v => decide (sqDegDist v (lon, lat) ≤ (miles / 69) ^ 2))

/-- Modelled from the spec: apply one Filter Engine predicate to a record
sequence. -/
def applyFilter : FilterSpec → List FirePerimeter → List FirePerimeter
  | .minAcres x, recs => by_min_acres x recs
  | .maxContainment x, recs => by_max_containment x recs
  | .state code, recs => by_state code recs
  | .bbox a b c d, recs => by_bbox a b c d recs
  | .radius lat lon miles, recs => by_radius lat lon miles recs

theorem applyFilter_eq_filter (f : FilterSpec) (recs : List FirePerimeter) :
    applyFilter f recs = recs.filter f.pred := by
  cases f <;> rfl

/-- Sample record: a 5000-acre fire at 10% containment (spec §8 scenario). -/
def sampleBigFire : FirePerimeter :=
  { id := "F1", name := "Big", geometry := [(-118, 34), (-117, 34), (-117, 35)],
    acres := 5000, containment_pct := 10, discovery_date := some 100,
    perimeter_type := .current, source_dataset := "WFIGS" }

/-- Sample record: a 500-acre fire at 10% containment (spec §8 scenario). -/
def sampleSmallFire : FirePerimeter :=
  { id := "F2", name := "Small", geometry := [(-120, 40), (-119, 40), (-119, 41)],
    acres := 500, containment_pct := 10, discovery_date := some 100,
    perimeter_type := .current, source_dataset := "WFIGS" }

/-- C1: for every record sequence and threshold `x`, `by_min_acres x` returns a
subset of its input in which every kept record has `acres ≥ x`, and every input
record excluded from the output has `acres < x`. -/
theorem by_min_acres_subset_kept_excluded (x : ℚ) (recs : List FirePerimeter) :
    (∀ r ∈ by_min_acres x recs, r ∈ recs ∧ x ≤ r.acres) ∧
    (∀ r ∈ recs, r ∉ by_min_acres x recs → r.acres < x) := by
  constructor
  · intro r hr
    rw [by_min_acres, List.mem_filter] at hr
    exact ⟨hr.1, by simpa using hr.2⟩
  · intro r hmem hout
    by_contra hge
    push_neg at hge
    exact hout (by rw [by_min_acres, List.mem_filter]; exact ⟨hmem, by simpa using hge⟩)

/-- Witness for C1 at the spec §8 scenario: with threshold 1000 the 5000-acre
fire is kept and the 500-acre fire is excluded. -/
theorem by_min_acres_subset_kept_excluded_witness :
    (sampleBigFire ∈ [sampleBigFire, sampleSmallFire] ∧
      (1000 : ℚ) ≤ sampleBigFire.acres) ∧
    sampleSmallFire.acres < 1000 :=
  ⟨(by_min_acres_subset_kept_excluded 1000 [sampleBigFire, sampleSmallFire]).1
      sampleBigFire (by decide),
   (by_min_acres_subset_kept_excluded 1000 [sampleBigFire, sampleSmallFire]).2
      sampleSmallFire (by decide) (by decide)⟩

/-- C2: applying any two Filter Engine predicates in either order yields the
same result (here proved as equality of the output sequences, which is stronger
than equality of result sets). -/
theorem applyFilter_comm (f g : FilterSpec) (recs : List FirePerimeter) :
    applyFilter f (applyFilter g recs) = applyFilter g (applyFilter f recs) := by
  rw [applyFilter_eq_filter, applyFilter_eq_filter, applyFilter_eq_filter,
    applyFilter_eq_filter, List.filter_filter, List.filter_filter]
  apply List.filter_congr
  intro r _
  exact Bool.and_comm (f.pred r) (g.pred r)

/-- Modelled from the spec: the normalized acreage component of the ember-risk
score, worth up to 50 points (acreage is normalized against a 10000-acre
reference, one point per 200 acres, capped). -/
def acreageComponent (acres : ℚ) : ℚ :=
  min 50 (acres / 200)

/-- Modelled from the spec: the inverse-containment component of the ember-risk
score, worth up to 50 points (an uncontained fire scores the full 50). -/
def containmentComponent (containment_pct : ℚ) : ℚ :=
  (100 - containment_pct) / 2

/-- Modelled from the spec: `score = f(acres, containment_pct)` combines
normalized acreage and inverse containment, clamped to the fixed 0–100
range. -/
def risk_score (acres containment_pct : ℚ) : ℚ :=
  min 100 (max 0 (acreageComponent acres + containmentComponent containment_pct))

/-- C3: the risk score is non-decreasing in `acres` for fixed containment,
non-increasing in `containment_pct` for fixed acres, and always lies in the
fixed 0–100 range. -/
theorem risk_score_monotone_bounded (a a' c c' : ℚ) :
    (a ≤ a' → risk_score a c ≤ risk_score a' c) ∧
    (c ≤ c' → risk_score a c' ≤ risk_score a c) ∧
    0 ≤ risk_score a c ∧ risk_score a c ≤ 100 := by
  refine ⟨?_, ?_, ?_, min_le_left _ _⟩
  · intro h
    unfold risk_score acreageComponent containmentComponent
    gcongr
  · intro h
    unfold risk_score acreageComponent containmentComponent
    gcongr
  · exact le_min (by norm_num) (le_max_left 0 _)

/-- Witness for C3 at concrete inputs: growing a 1000-acre fire to 5000 acres
never lowers the score, raising containment from 10% to 60% never raises it,
and the score at (1000, 10) is within 0–100. -/
theorem risk_score_monotone_bounded_witness :
    risk_score 1000 10 ≤ risk_score 5000 10 ∧
    risk_score 1000 60 ≤ risk_score 1000 10 ∧
    0 ≤ risk_score 1000 10 ∧ risk_score 1000 10 ≤ 100 :=
  ⟨(risk_score_monotone_bounded 1000 5000 10 10).1 (by norm_num),
   (risk_score_monotone_bounded 1000 5000 10 60).2.1 (by norm_num),
   (risk_score_monotone_bounded 1000 5000 10 10).2.2⟩

/-- Modelled from the spec: configured minimum buffer radius in miles (avoids
degenerate buffers for zero-containment micro-fires). -/
def minBufferRadius : ℚ := 1 / 2

/-- Modelled from the spec: configured maximum buffer radius in miles (avoids
unbounded buffers for megafires). -/
def maxBufferRadius : ℚ := 10

/-- Modelled from the spec: buffer radius derived from the risk score by a
monotonic mapping, clamped to the configured minimum and maximum. -/
def bufferRadius (score : ℚ) : ℚ :=
  max minBufferRadius (min maxBufferRadius (score / 10))

/-- Modelled from the spec: convert miles to degrees (69 miles per degree). -/
def milesToDeg (miles : ℚ) : ℚ := miles / 69

/-- Modelled from the spec: the sign of a rational, used to direct each vertex
offset away from the interior of the polygon. -/
def sgnQ (q : ℚ) : ℚ :=
  if q < 0 then -1 else if 0 < q then 1 else 0

/-- Modelled from the spec: the centroid (vertex average) of a geometry, the
interior reference point of the offset operation. -/
def centroidOf (pts : List (ℚ × ℚ)) : ℚ × ℚ :=
  ((pts.map Prod.fst).sum / pts.length, (pts.map Prod.snd).sum / pts.length)

/-- Modelled from the spec: move one vertex outward from the interior
reference point by `d` degrees along each coordinate axis. -/
def offsetVertex (c : ℚ × ℚ) (d : ℚ) (v : ℚ × ℚ) : ℚ × ℚ :=
  (v.1 + d * sgnQ (v.1 - c.1), v.2 + d * sgnQ (v.2 - c.2))

/-- Modelled from the spec: the raw offset ring of the dilation: every vertex
of the source polygon pushed outward from the centroid by the buffer extent,
preserving vertex order.  Nothing forces this raw result to be a well-formed
ring: the validity check below genuinely fails on collinear, clockwise or
locally non-convex outcomes, and the convex-hull fallback then repairs it. -/
def rawOffsetRing (pts : List (ℚ × ℚ)) (d : ℚ) : List (ℚ × ℚ) :=
  pts.map (offsetVertex (centroidOf pts) d)

/-- Cross product of the edges `o → a` and `o → b`. -/
def cross (o a b : ℚ × ℚ) : ℚ :=
  (a.1 - o.1) * (b.2 - o.2) - (a.2 - o.2) * (b.1 - o.1)

/-- Rotate a ring one step. -/
def rot1 : List (ℚ × ℚ) → List (ℚ × ℚ)
  | [] => []
  | p :: ps => ps ++ [p]

/-- Every cyclic triple of consecutive ring vertices. -/
def cyclicTriples (poly : List (ℚ × ℚ)) : List ((ℚ × ℚ) × (ℚ × ℚ) × (ℚ × ℚ)) :=
  poly.zip ((rot1 poly).zip (rot1 (rot1 poly)))

/-- Modelled from the spec: validity of a buffer ring ("a valid,
non-self-intersecting polygon"), rendered as the strict convex-turn test: at
least three vertices and a strictly positive cross product at every cyclic
vertex triple (a ring of winding number one passing this test is simple).
The test is decidable and genuinely fails on degenerate offset results. -/
def isValidRing (poly : List (ℚ × ℚ)) : Bool :=
  decide (3 ≤ poly.length) &&
    (cyclicTriples poly).all (fun t => decide (0 < cross t.1 t.2.1 t.2.2))

/-- Pad a bounding box outward by `d` on every side. -/
def padBBox (b : BBox) (d : ℚ) : BBox :=
  ⟨b.minLon - d, b.minLat - d, b.maxLon + d, b.maxLat + d⟩

/-- The counter-clockwise corner ring of a bounding box. -/
def rectRing (b : BBox) : List (ℚ × ℚ) :=
  [(b.minLon, b.minLat), (b.maxLon, b.minLat), (b.maxLon, b.maxLat),
   (b.minLon, b.maxLat)]

/-- Modelled from the spec: the convex-hull repair of a degenerate offset ring,
rendered as the axis-aligned hull rectangle of the offset points, padded by the
(strictly positive) buffer extent so even a fully collapsed hull still yields a
usable ring. -/
def hullRepairRing (pts : List (ℚ × ℚ)) (d : ℚ) : List (ℚ × ℚ) :=
  match bboxOf pts with
  | none => []
  | some b => rectRing (padBBox b d)

/-- Modelled from the spec: the derived DangerZone value; `hull_repaired`
records whether the convex-hull fallback was applied. -/
structure DangerZone where
  source_perimeter_id : String
  buffer_geometry : List (ℚ × ℚ)
  risk_score : ℚ
  buffer_radius_miles : ℚ
  hull_repaired : Bool
deriving DecidableEq, Repr

/-- Modelled from the spec: the raw (pre-repair) buffer ring of a perimeter:
its polygon dilated outward by the degree rendering of the clamped buffer
radius. -/
def rawBufferRingOf (p : FirePerimeter) : List (ℚ × ℚ) :=
  rawOffsetRing p.geometry
    (milesToDeg (bufferRadius (risk_score p.acres p.containment_pct)))

/-- Modelled from the spec: `analyze(perimeter) → DangerZone`: score the
perimeter, derive the clamped buffer radius, dilate the perimeter polygon
outward, and repair a degenerate or self-intersecting result through the
convex-hull fallback, recording the repair in the `hull_repaired` flag. -/
def analyze (p : FirePerimeter) : Option DangerZone :=
  match p.geometry with
  | [] => none
  | _ :: _ =>
    let score := risk_score p.acres p.containment_pct
    let radius := bufferRadius score
    let raw := rawBufferRingOf p
    if isValidRing raw then
      some ⟨p.id, raw, score, radius, false⟩
    else
      some ⟨p.id, hullRepairRing raw (milesToDeg radius), score, radius, true⟩

/-- Sample record whose collinear geometry makes the raw offset ring
degenerate, forcing the convex-hull fallback. -/
def sampleLineFire : FirePerimeter :=
  { id := "F3", name := "Line", geometry := [(-100, 40), (-99, 40), (-98, 40)],
    acres := 800, containment_pct := 30, discovery_date := some 50,
    perimeter_type := .current, source_dataset := "WFIGS" }

/-- The convex-hull fallback is live: on collinear geometry the raw offset
ring fails the validity check and analyze records the repair. -/
theorem analyze_fallback_fires :
    (analyze sampleLineFire).map DangerZone.hull_repaired = some true := by
  norm_num [analyze, sampleLineFire, rawBufferRingOf, rawOffsetRing, centroidOf,
    offsetVertex, sgnQ, isValidRing, cyclicTriples, rot1, cross, risk_score,
    acreageComponent, containmentComponent, bufferRadius, milesToDeg,
    minBufferRadius, maxBufferRadius, hullRepairRing, bboxOf, extendBBox,
    padBBox, rectRing]

/-- The validity check is live in the other direction: the sample convex
fire's raw offset ring passes it and no repair is recorded. -/
theorem analyze_keeps_valid_ring :
    (analyze sampleBigFire).map DangerZone.hull_repaired = some false := by
  norm_num [analyze, sampleBigFire, rawBufferRingOf, rawOffsetRing, centroidOf,
    offsetVertex, sgnQ, isValidRing, cyclicTriples, rot1, cross, risk_score,
    acreageComponent, containmentComponent, bufferRadius, milesToDeg,
    minBufferRadius, maxBufferRadius]

/-- Modelled from the spec: a Repository entry: fetched-at timestamp,
perimeter type, and an ordered sequence of records; immutable once written. -/
structure PerimeterSnapshot where
  fetched_at : ℕ
  perimeter_type : PerimeterType
  records : List FirePerimeter
deriving DecidableEq, Repr

/-- Modelled from the spec: the Perimeter Repository keeps every stored
snapshot (newest first); prior snapshots remain addressable until retention
expiry, and the newest snapshot of a type is its live value. -/
structure Repository where
  snapshots : List PerimeterSnapshot
deriving DecidableEq, Repr

/-- Modelled from the spec: `put(snapshot)` stores a new snapshot, keyed by
`perimeter_type`, as the new live value for that type. -/
def Repository.put (repo : Repository) (s : PerimeterSnapshot) : Repository :=
  ⟨s :: repo.snapshots⟩

/-- Modelled from the spec: `get_current(perimeter_type)` returns the most
recently stored snapshot for the type, or `none` when no snapshot exists. -/
def Repository.get_current (repo : Repository) (t : PerimeterType) :
    Option PerimeterSnapshot :=
  repo.snapshots.find? (fun s => decide (s.perimeter_type = t))

/-- C5: `put(snapshot)` followed by `get_current` on the snapshot's type
returns a snapshot with identical record count and identical `fetched_at`
(in fact the snapshot itself). -/
theorem repository_put_get_current (repo : Repository) (s : PerimeterSnapshot) :
    ∃ s', (repo.put s).get_current s.perimeter_type = some s' ∧
      s'.records.length = s.records.length ∧ s'.fetched_at = s.fetched_at := by
  refine ⟨s, ?_, rfl, rfl⟩
  unfold Repository.put Repository.get_current
  simp [List.find?_cons]

/-- Modelled from the spec: a raw upstream record before validation; geometry
that failed to parse into a supported shape is `none`, a non-numeric `acres`
value is `none`. -/
structure RawRecord where
  id : String
  name : String
  geometry : Option (List (ℚ × ℚ))
  acres : Option ℚ
  containment_pct : Option ℚ
  discovery_date : Option ℕ
  perimeter_type : PerimeterType
  source_dataset : String
deriving DecidableEq, Repr

/-- Modelled from the spec: validate one raw record: geometry must parse into
a supported non-empty shape and `acres` must be a number ≥ 0; an absent
containment value is treated as 0 (uncontained). -/
def validateRecord (r : RawRecord) : Option FirePerimeter :=
  match r.geometry with
  | none => none
  | some g =>
    if g.isEmpty then none
    else
      match r.acres with
      | none => none
      | some a =>
        if a < 0 then none
        else
          some { id := r.id, name := r.name, geometry := g, acres := a,
                 containment_pct := r.containment_pct.getD 0,
                 discovery_date := r.discovery_date,
                 perimeter_type := r.perimeter_type,
                 source_dataset := r.source_dataset }

/-- Modelled from the spec: process a fetch batch: record-level validation
failures are absorbed and counted, the remaining records are validated and
returned; the operation is total, so a malformed record never fails the whole
fetch. -/
def processBatch (batch : List RawRecord) : List FirePerimeter × ℕ :=
  let valid := batch.filterMap validateRecord
  (valid, batch.length - valid.length)

theorem length_filterMap_lt_of_none {α β : Type} (f : α → Option β)
    (l : List α) (a : α) (ha : a ∈ l) (hf : f a = none) :
    (l.filterMap f).length < l.length := by
  induction l with
  | nil => cases ha
  | cons x xs ih =>
    rcases List.mem_cons.mp ha with rfl | ha
    · rw [List.filterMap_cons, hf]
      exact Nat.lt_succ_of_le (List.length_filterMap_le f xs)
    · rw [List.filterMap_cons]
      cases f x with
      | none => exact Nat.lt_succ_of_lt (ih ha)
      | some b => exact Nat.succ_lt_succ (ih ha)

/-- C6: a raw record whose geometry fails to parse or whose acres is negative
or non-numeric is discarded (its validation yields `none`) and counted (the
dropped counter is at least one and accounts exactly for the records not
returned), while every other record of the same batch that validates is still
returned; the fetch as a whole still produces a result. -/
theorem processBatch_drops_and_keeps (batch : List RawRecord) (r : RawRecord)
    (hr : r ∈ batch)
    (hbad : r.geometry = none ∨ r.acres = none ∨ ∃ a, r.acres = some a ∧ a < 0) :
    validateRecord r = none ∧
    (∀ r' ∈ batch, ∀ p, validateRecord r' = some p → p ∈ (processBatch batch).1) ∧
    1 ≤ (processBatch batch).2 ∧
    (processBatch batch).1.length + (processBatch batch).2 = batch.length := by
  have hnone : validateRecord r = none := by
    rcases hbad with hg | ha | ⟨a, ha, hneg⟩
    · rw [validateRecord, hg]
    · rw [validateRecord]
      cases hgeo : r.geometry with
      | none => rfl
      | some g =>
        by_cases hge : g.isEmpty
        · simp [hge]
        · simp [hge, ha]
    · rw [validateRecord]
      cases hgeo : r.geometry with
      | none => rfl
      | some g =>
        by_cases hge : g.isEmpty
        · simp [hge]
        · simp [hge, ha, hneg]
  have hlt : (batch.filterMap validateRecord).length < batch.length :=
    length_filterMap_lt_of_none validateRecord batch r hr hnone
  refine ⟨hnone, ?_, ?_, ?_⟩
  · intro r' hr' p hp
    exact List.mem_filterMap.mpr ⟨r', hr', hp⟩
  · exact Nat.le_sub_of_add_le (by omega)
  · have := List.length_filterMap_le validateRecord batch
    unfold processBatch
    dsimp only
    omega

/-- Sample raw record that validates cleanly. -/
def rawGood : RawRecord :=
  { id := "G", name := "Good", geometry := some [(-118, 34), (-117, 34)],
    acres := some 1200, containment_pct := some 25, discovery_date := some 7,
    perimeter_type := .current, source_dataset := "WFIGS" }

/-- Sample raw record with negative acres. -/
def rawBadAcres : RawRecord :=
  { id := "B", name := "Bad", geometry := some [(-118, 34), (-117, 34)],
    acres := some (-5), containment_pct := some 25, discovery_date := some 7,
    perimeter_type := .current, source_dataset := "WFIGS" }

/-- Witness for C6 on a two-record batch with one negative-acres record: the
bad record is dropped, every validated record is returned, at least one drop
is counted, and the counts add up. -/
theorem processBatch_drops_and_keeps_witness :
    validateRecord rawBadAcres = none ∧
    (∀ r' ∈ [rawGood, rawBadAcres], ∀ p, validateRecord r' = some p →
      p ∈ (processBatch [rawGood, rawBadAcres]).1) ∧
    1 ≤ (processBatch [rawGood, rawBadAcres]).2 ∧
    (processBatch [rawGood, rawBadAcres]).1.length +
      (processBatch [rawGood, rawBadAcres]).2 = ([rawGood, rawBadAcres] : List RawRecord).length :=
  processBatch_drops_and_keeps [rawGood, rawBadAcres] rawBadAcres (by decide)
    (Or.inr (Or.inr ⟨-5, rfl, by norm_num⟩))

/-- Modelled from the spec: the Data Fetcher's in-flight bookkeeping: whether a
fetch is in flight for each perimeter type, and a per-type upstream fetch
counter. -/
structure FetcherState where
  inflight : PerimeterType → Bool
  fetch_count : PerimeterType → ℕ

/-- Result a refresh trigger reports to its caller: it either started the
upstream fetch or joined one already in flight. -/
inductive TriggerOutcome where
  | started
  | joined
deriving DecidableEq, Repr

/-- Modelled from the spec: a refresh trigger for one perimeter type.  When a
fetch for the type is already in flight, the caller joins it (no new upstream
request); otherwise a single upstream fetch starts and the counter
increments. -/
def trigger (t : PerimeterType) (s : FetcherState) : FetcherState × TriggerOutcome :=
  if s.inflight t then
    (s, .joined)
  else
    ({ inflight := fun u => if u = t then true else s.inflight u,
       fetch_count := fun u => if u = t then s.fetch_count u + 1 else s.fetch_count u },
     .started)

/-- C7: two refresh triggers for the same perimeter type issued while no fetch
is in flight result in exactly one upstream fetch (the counter rises by one),
the first caller starts it and the second joins the in-flight fetch. -/
theorem trigger_single_inflight (t : PerimeterType) (s : FetcherState)
    (h : s.inflight t = false) :
    (trigger t (trigger t s).1).1.fetch_count t = s.fetch_count t + 1 ∧
    (trigger t s).2 = .started ∧
    (trigger t (trigger t s).1).2 = .joined := by
  have h1 : trigger t s =
      ({ inflight := fun u => if u = t then true else s.inflight u,
         fetch_count := fun u => if u = t then s.fetch_count u + 1 else s.fetch_count u },
       .started) := by
    unfold trigger
    rw [h]
    simp
  refine ⟨?_, by rw [h1], ?_⟩
  · rw [h1]
    unfold trigger
    simp
  · rw [h1]
    unfold trigger
    simp

/-- Witness for C7 from the idle initial fetcher state: two triggers for
`current` perform exactly one upstream fetch and the second caller joins. -/
theorem trigger_single_inflight_witness :
    (trigger .current (trigger .current ⟨fun _ => false, fun _ => 0⟩).1).1.fetch_count
        .current = (fun (_ : PerimeterType) => 0) .current + 1 ∧
    (trigger .current ⟨fun _ => false, fun _ => 0⟩).2 = .started ∧
    (trigger .current (trigger .current ⟨fun _ => false, fun _ => 0⟩).1).2 = .joined :=
  trigger_single_inflight .current ⟨fun _ => false, fun _ => 0⟩ rfl

/-
The Express resource store, embedded from the backend server code found in
the repository (in-memory `resources` array plus `idCounter`, with GET, POST,
PUT, DELETE handlers on /api/resources).
-/

/-- Request body of the CRUD API: an arbitrary JSON object; the fields the
application uses are `name` and `description`, and a body may also carry an
`id` key (the handlers spread `req.body`, so such a key takes effect). -/
structure RequestBody where
  id : Option ℕ
  name : Option String
  description : Option String
deriving DecidableEq, Repr

/-- Stored resource shape: `{ id, ...body }`. -/
structure Resource where
  id : ℕ
  name : Option String
  description : Option String
deriving DecidableEq, Repr

/-- Server state: the in-memory `resources` array and the `idCounter`
variable, which starts at 1. -/
structure StoreState where
  resources : List Resource
  idCounter : ℕ
deriving DecidableEq, Repr

/-- Body of an HTTP response from the CRUD API. -/
inductive ResponseBody where
  | resourceList (rs : List Resource)
  | resource (r : Resource)
  | errorMsg (msg : String)
deriving DecidableEq, Repr

/-- Status code plus JSON body of an HTTP response. -/
structure ApiResponse where
  status : ℕ
  body : ResponseBody
deriving DecidableEq, Repr

/-- JavaScript `Array.prototype.findIndex` (−1 on no match embeds as
`none`). -/
def findIndex (p : Resource → Bool) : List Resource → Option ℕ
  | [] => none
  | r :: rs => if p r then some 0 else (findIndex p rs).map (fun n => n + 1)

/-- Handler of GET /api/resources: respond with the whole array. -/
def getAllResources (s : StoreState) : StoreState × ApiResponse :=
  (s, ⟨200, .resourceList s.resources⟩)

/-- Handler of GET /api/resources/:id: `resources.find(r => r.id === id)`,
404 `{error: 'Not found'}` when absent. -/
def getResourceById (s : StoreState) (i : ℕ) : StoreState × ApiResponse :=
  match s.resources.find? (fun r => decide (r.id = i)) with
  | none => (s, ⟨404, .errorMsg "Not found"⟩)
  | some r => (s, ⟨200, .resource r⟩)

/-- JavaScript object spread `{ ...old, ...body }`: fields present in the body
override the stored resource. -/
def mergeResource (old : Resource) (b : RequestBody) : Resource :=
  { id := b.id.getD old.id,
    name := b.name.or old.name,
    description := b.description.or old.description }

/-- Handler of POST /api/resources: `{ id: idCounter++, ...req.body }` pushed
onto the array, answered with 201; note that a body carrying an `id` key
overrides the counter-assigned id because the spread comes second. -/
def createResource (s : StoreState) (b : RequestBody) : StoreState × ApiResponse :=
  let r : Resource := { id := b.id.getD s.idCounter, name := b.name,
                        description := b.description }
  ({ resources := s.resources ++ [r], idCounter := s.idCounter + 1 },
   ⟨201, .resource r⟩)

/-- Handler of PUT /api/resources/:id: findIndex, 404 when absent, otherwise
replace the element with `{ ...resources[idx], ...req.body }`. -/
def updateResource (s : StoreState) (i : ℕ) (b : RequestBody) :
    StoreState × ApiResponse :=
  match findIndex (fun r => decide (r.id = i)) s.resources with
  | none => (s, ⟨404, .errorMsg "Not found"⟩)
  | some idx =>
    let updated := mergeResource (s.resources.getD idx ⟨0, none, none⟩) b
    ({ s with resources := s.resources.set idx updated }, ⟨200, .resource updated⟩)

/-- Handler of DELETE /api/resources/:id: findIndex, 404 when absent,
otherwise splice the element out and echo it. -/
def deleteResourceById (s : StoreState) (i : ℕ) : StoreState × ApiResponse :=
  match findIndex (fun r => decide (r.id = i)) s.resources with
  | none => (s, ⟨404, .errorMsg "Not found"⟩)
  | some idx =>
    ({ s with resources := s.resources.eraseIdx idx },
     ⟨200, .resource (s.resources.getD idx ⟨0, none, none⟩)⟩)

theorem findIndex_eq_none (p : Resource → Bool) (l : List Resource)
    (h : ∀ r ∈ l, p r = false) : findIndex p l = none := by
  induction l with
  | nil => rfl
  | cons r rs ih =>
    rw [findIndex, if_neg (by simp [h r (List.mem_cons_self r rs)]),
      ih (fun r' hr' => h r' (List.mem_cons_of_mem r hr')), Option.map_none']

/-- C8: for every store state and every id not present in the store, GET, PUT
and DELETE on /api/resources/:id answer 404 with body `{error: 'Not found'}`
and leave the resource list and the id counter unchanged. -/
theorem missing_id_gives_404_unchanged (s : StoreState) (i : ℕ) (b : RequestBody)
    (h : ∀ r ∈ s.resources, r.id ≠ i) :
    getResourceById s i = (s, ⟨404, .errorMsg "Not found"⟩) ∧
    updateResource s i b = (s, ⟨404, .errorMsg "Not found"⟩) ∧
    deleteResourceById s i = (s, ⟨404, .errorMsg "Not found"⟩) := by
  have hfind : s.resources.find? (fun r => decide (r.id = i)) = none :=
    List.find?_eq_none.mpr (fun r hr => by simp [h r hr])
  have hidx : findIndex (fun r => decide (r.id = i)) s.resources = none :=
    findIndex_eq_none _ _ (fun r hr => by simp [h r hr])
  refine ⟨?_, ?_, ?_⟩
  · rw [getResourceById, hfind]
  · rw [updateResource, hidx]
  · rw [deleteResourceById, hidx]

/-- Witness for C8 on the empty initial store at id 7. -/
theorem missing_id_gives_404_unchanged_witness :
    getResourceById ⟨[], 1⟩ 7 = (⟨[], 1⟩, ⟨404, .errorMsg "Not found"⟩) ∧
    updateResource ⟨[], 1⟩ 7 ⟨none, some "x", none⟩ =
      (⟨[], 1⟩, ⟨404, .errorMsg "Not found"⟩) ∧
    deleteResourceById ⟨[], 1⟩ 7 = (⟨[], 1⟩, ⟨404, .errorMsg "Not found"⟩) :=
  missing_id_gives_404_unchanged ⟨[], 1⟩ 7 ⟨none, some "x", none⟩ (by simp)

/-- Requests the Express resource store serves. -/
inductive Request where
  | getAll
  | getOne (i : ℕ)
  | create (b : RequestBody)
  | put (i : ℕ) (b : RequestBody)
  | remove (i : ℕ)

/-- Dispatch one request to its handler. -/
def step (s : StoreState) : Request → StoreState × ApiResponse
  | .getAll => getAllResources s
  | .getOne i => getResourceById s i
  | .create b => createResource s b
  | .put i b => updateResource s i b
  | .remove i => deleteResourceById s i

/-- Server state at startup: empty array, counter at 1. -/
def initialState : StoreState := ⟨[], 1⟩

/-- Run a request sequence, keeping the final state. -/
def run (s : StoreState) (qs : List Request) : StoreState :=
  qs.foldl (fun s q => (step s q).1) s

/-- Whether a request is a POST. -/
def isCreate : Request → Bool
  | .create _ => true
  | _ => false

/-- Number of POSTs in a request sequence. -/
def countPosts (qs : List Request) : ℕ := (qs.filter isCreate).length

theorem step_idCounter (s : StoreState) (q : Request) :
    (step s q).1.idCounter = s.idCounter + (if isCreate q then 1 else 0) := by
  cases q with
  | getAll => rfl
  | getOne i =>
    show (getResourceById s i).1.idCounter = _
    unfold getResourceById
    cases s.resources.find? (fun r => decide (r.id = i)) <;> rfl
  | create b => rfl
  | put i b =>
    show (updateResource s i b).1.idCounter = _
    unfold updateResource
    cases findIndex (fun r => decide (r.id = i)) s.resources <;> rfl
  | remove i =>
    show (deleteResourceById s i).1.idCounter = _
    unfold deleteResourceById
    cases findIndex (fun r => decide (r.id = i)) s.resources <;> rfl

theorem run_idCounter (qs : List Request) (s : StoreState) :
    (run s qs).idCounter = s.idCounter + countPosts qs := by
  induction qs generalizing s with
  | nil => simp [run, countPosts]
  | cons q qs ih =>
    have hstep := step_idCounter s q
    have htail := ih (step s q).1
    have hcount : countPosts (q :: qs) =
        (if isCreate q then 1 else 0) + countPosts qs := by
      unfold countPosts
      rw [List.filter_cons]
      cases h : isCreate q <;> simp [h, Nat.add_comm]
    rw [run, List.foldl_cons, ← run, htail, hstep, hcount]
    omega

/-- C9 counterexample: the request body of a POST is spread after the
counter-assigned id (`{ id: idCounter++, ...req.body }`), so the very first
POST, given a body that carries `id: 999`, creates a resource with id 999
rather than id 1. -/
theorem first_post_id_overridden_by_body :
    (step initialState (Request.create ⟨some 999, none, none⟩)).2.body =
      ResponseBody.resource ⟨999, none, none⟩ ∧ (999 : ℕ) ≠ 1 :=
  ⟨rfl, by decide⟩

/-- C9 (amended): starting from the initial empty state, a POST whose body does
not itself carry an `id` key is assigned id `n`, where `n − 1` POSTs precede it
in the request sequence — so such ids start at 1, rise by exactly one per
POST, are strictly increasing and are never reused, even after a DELETE. -/
theorem post_assigns_sequential_ids (qs : List Request) (b : RequestBody)
    (hb : b.id = none) :
    ∃ r : Resource, (step (run initialState qs) (.create b)).2.body =
      ResponseBody.resource r ∧ r.id = countPosts qs + 1 := by
  refine ⟨⟨(run initialState qs).idCounter, b.name, b.description⟩, ?_, ?_⟩
  · show (createResource (run initialState qs) b).2.body = _
    unfold createResource
    rw [hb]
    rfl
  · show (run initialState qs).idCounter = countPosts qs + 1
    rw [run_idCounter]
    show 1 + countPosts qs = countPosts qs + 1
    omega

/-- Witness for C9 (amended): after one POST and one DELETE, a second id-less
POST is assigned id 2. -/
theorem post_assigns_sequential_ids_witness :
    ∃ r : Resource,
      (step (run initialState [Request.create ⟨none, some "a", none⟩, Request.remove 1])
          (.create ⟨none, some "b", none⟩)).2.body = ResponseBody.resource r ∧
      r.id = countPosts [Request.create ⟨none, some "a", none⟩, Request.remove 1] + 1 :=
  post_assigns_sequential_ids
    [Request.create ⟨none, some "a", none⟩, Request.remove 1]
    ⟨none, some "b", none⟩ rfl

/-
The MapView tile-layer toggle, embedded from the React component.
-/

/-- One configured Leaflet tile layer of the MapView component. -/
structure TileLayer where
  key : String
  url : String
  attribution : String
  label : String
  button : String
deriving DecidableEq, Repr

/-- The three configured tile layers of MapView. -/
def TILE_LAYERS : List TileLayer :=
  [{ key := "satellite",
     url := "https://server.arcgisonline.com/ArcGIS/rest/services/World_Imagery/MapServer/tile/{z}/{y}/{x}",
     attribution := "Tiles &copy; Esri &mdash; Source: Esri, i-cubed, USDA, USGS, AEX, GeoEye, Getmapping, Aerogrid, IGN, IGP, UPR-EGP, and the GIS User Community",
     label := "Satellite",
     button := "Switch to Dark Mode" },
   { key := "dark",
     url := "https://{s}.basemaps.cartocdn.com/dark_all/{z}/{x}/{y}{r}.png",
     attribution := "&copy; <a href=\"https://carto.com/attributions\">CARTO</a> | &copy; <a href=\"https://www.openstreetmap.org/copyright\">OpenStreetMap</a> contributors",
     label := "Dark Mode",
     button := "Switch to OpenStreetMap" },
   { key := "osm",
     url := "https://{s}.tile.openstreetmap.org/{z}/{x}/{y}.png",
     attribution := "&copy; OpenStreetMap contributors",
     label := "OpenStreetMap",
     button := "Switch to Satellite" }]

/-- MapView's toggle: `setLayerIndex(prev => (prev + 1) % TILE_LAYERS.length)`. -/
def handleToggle (prev : ℕ) : ℕ := (prev + 1) % TILE_LAYERS.length

/-- C10: there are three configured tile layers; the toggle maps index `i` to
`(i + 1) mod 3`, so it always lands strictly inside the bounds of TILE_LAYERS,
and from any in-range layer three toggles return to the starting layer. -/
theorem handleToggle_cycles (i : ℕ) :
    TILE_LAYERS.length = 3 ∧
    handleToggle i = (i + 1) % 3 ∧
    handleToggle i < TILE_LAYERS.length ∧
    (i < 3 → handleToggle (handleToggle (handleToggle i)) = i) := by
  refine ⟨rfl, rfl, ?_, ?_⟩
  · show (i + 1) % 3 < 3
    omega
  · intro h
    show ((((i + 1) % 3 + 1) % 3 + 1) % 3) = i
    omega

/-- Witness for C10 starting from the third layer. -/
theorem handleToggle_cycles_witness :
    TILE_LAYERS.length = 3 ∧
    handleToggle 2 = (2 + 1) % 3 ∧
    handleToggle 2 < TILE_LAYERS.length ∧
    handleToggle (handleToggle (handleToggle 2)) = 2 :=
  ⟨(handleToggle_cycles 2).1, (handleToggle_cycles 2).2.1,
   (handleToggle_cycles 2).2.2.1, (handleToggle_cycles 2).2.2.2 (by decide)⟩

end EmberAI
